import Mathlib

/-!
Verification of the layered configuration resolver in `fuel/config_parser.py`.

The Python module exposes a `Configuration` object whose settings are stored
in the instance attribute `config`, a dict mapping a setting name to a dict
with keys `type` (coercion function), and optionally `env_var`, `value`
(explicit override), `yaml` (overlay-file value) and `default`.  Reads go
through `Configuration.__getattr__`, writes through
`Configuration.__setattr__`, registration through `Configuration.add_config`
and the overlay load through `Configuration.load_yaml`.

We embed Python raw values as the inductive `Val`, errors as `PyErr`, a
setting dict as the structure `Setting` (whose `type_` field is an arbitrary
coercion `Val → Except PyErr Val`, mirroring the arbitrary Python function
stored under the key `type`), the `config` dict as an association list
`Registry`, and the object state as `CState` (the instance attribute
`config`, which an assignment can rebind to a non-dict, plus the other plain
instance attributes created by `object.__setattr__`).
-/

namespace FuelConfig

/-- Python raw values that flow through the configuration engine:
strings, ints, booleans, `None` and lists. -/
inductive Val where
  | vstr (s : String)
  | vint (n : Int)
  | vbool (b : Bool)
  | vnone
  | vlist (l : List Val)

/-- The exceptions the module can raise: `AttributeError` (unregistered or
reserved name), `TypeError` (the `config` attribute was rebound to a
non-dict and is then used as a dict), `KeyError`, `ValueError` (bad coercion
input or unrecognized YAML key, with the formatted message), and
`ConfigurationError` for "not set and no default", carrying the setting
name that the formatted message names. -/
inductive PyErr where
  | attributeError
  | typeError
  | keyError (key : String)
  | valueError (msg : String)
  | configurationNotSet (key : String)
deriving DecidableEq, Repr

/-- Python truthiness `bool(v)` for the embedded values. -/
def truthy : Val → Bool
  | .vstr s => !(s == "")
  | .vint n => !(n == 0)
  | .vbool b => b
  | .vnone => false
  | .vlist l => !l.isEmpty

mutual

/-- Python `repr` for the embedded values (string escaping omitted; no
claim exercises it). -/
def reprVal : Val → String
  | .vstr s => "'" ++ s ++ "'"
  | .vint n => toString n
  | .vbool true => "True"
  | .vbool false => "False"
  | .vnone => "None"
  | .vlist l => "[" ++ String.intercalate ", " (reprValList l) ++ "]"

/-- Mapping of `reprVal` over a list of values. -/
def reprValList : List Val → List String
  | [] => []
  | v :: t => reprVal v :: reprValList t

end

/-- Python `str(v)`: strings unchanged, other values rendered. -/
def strVal : Val → String
  | .vstr s => s
  | v => reprVal v

/-- Lookup in a string-keyed association list (a Python dict with its
insertion order). -/
def alookup {α : Type} : List (String × α) → String → Option α
  | [], _ => none
  | (k', a) :: t, k => if k' = k then some a else alookup t k

/-- Assignment `d[k] = a` on a dict: replace the entry in place if the key
is present, else append it. -/
def aset {α : Type} : List (String × α) → String → α → List (String × α)
  | [], k, a => [(k, a)]
  | (k', a') :: t, k, a => if k' = k then (k, a) :: t else (k', a') :: aset t k a

/-- Update the value stored under a present key in place (used for
mutations such as `self.config[key]['value'] = value`). -/
def aupd {α : Type} : List (String × α) → String → (α → α) → List (String × α)
  | [], _, _ => []
  | (k', a) :: t, k, f => if k' = k then (k', f a) :: t else (k', a) :: aupd t k f

/-- Python `s.split(c)` for a single-character separator, as used with
`" "` and with `os.path.pathsep`: `List.splitOn` has exactly these
semantics on the character list (empty string gives `[""]`, empty pieces
are kept). -/
def splitStr (c : Char) (s : String) : List String :=
  (List.splitOn c s.data).map String.mk

/-- Source function `extra_downloader_converter`: a string is split into a
list on single spaces, anything else is returned as is. -/
def extra_downloader_converter (value : Val) : Except PyErr Val :=
  match value with
  | .vstr s => .ok (.vlist ((splitStr ' ' s).map .vstr))
  | v => .ok v

/-- Source function `multiple_paths_parser`, with the platform constant
`os.path.pathsep` (one character, `:` or `;`) as the parameter `pathsep`:
a string is split on the path-list delimiter, anything else is returned
as is. -/
def multiple_paths (pathsep : Char) (value : Val) : Except PyErr Val :=
  match value with
  | .vstr s => .ok (.vlist ((splitStr pathsep s).map .vstr))
  | v => .ok v

/-- Source function `_human_bool(value, default)`: strings are interpreted
semantically (`''` returns the supplied default unchanged; `'1'/'True'/'true'`
is true; `'0'/'False'/'false'` is false; every other string raises
`ValueError`); every non-string is coerced by `bool(value)`. -/
def _human_bool (value : Val) (default : Val) : Except PyErr Val :=
  match value with
  | .vstr s =>
    if s.length = 0 then .ok default
    else if s = "1" ∨ s = "True" ∨ s = "true" then .ok (.vbool true)
    else if s = "0" ∨ s = "False" ∨ s = "false" then .ok (.vbool false)
    else .error (.valueError
      "string will not be interpreted as bool use 'True'/'False' instead")
  | v => .ok (.vbool (truthy v))

/-- Python `int(v)`, the coercion registered for `default_seed`. -/
def pyInt (value : Val) : Except PyErr Val :=
  match value with
  | .vint n => .ok (.vint n)
  | .vbool b => .ok (.vint (if b then 1 else 0))
  | .vstr s =>
    match s.toInt? with
    | some n => .ok (.vint n)
    | none => .error (.valueError ("invalid literal for int: " ++ s))
  | _ => .error .typeError

/-- Python `str(v)`, the coercion registered for `floatX`. -/
def pyStr (value : Val) : Except PyErr Val := .ok (.vstr (strVal value))

/-- One entry of the `config` dict: the per-setting dict built by
`add_config` and mutated by `__setattr__` / `load_yaml`.  The optional
fields model the presence or absence of the dict keys `env_var`, `value`,
`yaml` and `default`. -/
structure Setting where
  type_ : Val → Except PyErr Val
  env_var : Option String := none
  value : Option Val := none
  yaml : Option Val := none
  default : Option Val := none

/-- The `config` dict: setting name to setting dict, in insertion order. -/
def Registry : Type := List (String × Setting)

/-- The object bound to the instance attribute `config`: normally the
registry dict, but `__setattr__` can rebind it to an arbitrary value. -/
inductive ConfigAttr where
  | dict (r : Registry)
  | nondict (v : Val)

/-- The state of a `Configuration` instance: the `config` attribute and the
other plain instance attributes created by `object.__setattr__`. -/
structure CState where
  configAttr : ConfigAttr
  attrs : List (String × Val)

/-- A fresh `Configuration()`: `__init__` runs `self.config = {}`, which
`__setattr__` routes to `object.__setattr__`. -/
def emptyConfiguration : CState := { configAttr := .dict [], attrs := [] }

/-- The attribute `self.config` viewed as a dict; `none` when it was
rebound to a non-dict (dict operations on it then raise `TypeError`). -/
def registryOf (st : CState) : Option Registry :=
  match st.configAttr with
  | .dict r => some r
  | .nondict _ => none

/-- The process environment, a mapping from variable name to string. -/
def Env : Type := List (String × String)

/-- The condition `'env_var' in config_setting and config_setting['env_var']
in os.environ`, returning the raw environment string when it holds. -/
def envValue (env : Env) (s : Setting) : Option String :=
  match s.env_var with
  | some ev => alookup env ev
  | none => none

/-- `Configuration.__getattr__`: reserved/unregistered names raise
`AttributeError`; otherwise the first present source among the explicit
`value`, the environment variable, the `yaml` value and the `default` is
coerced by the setting's `type` function; with no source at all a
`ConfigurationError` naming the setting is raised. -/
def conf_getattr (env : Env) (st : CState) (key : String) : Except PyErr Val :=
  if key = "config" then .error .attributeError
  else
    match registryOf st with
    | none => .error .typeError
    | some reg =>
      match alookup reg key with
      | none => .error .attributeError
      | some s =>
        match s.value with
        | some v => s.type_ v
        | none =>
          match envValue env s with
          | some sv => s.type_ (.vstr sv)
          | none =>
            match s.yaml with
            | some v => s.type_ v
            | none =>
              match s.default with
              | some v => s.type_ v
              | none => .error (.configurationNotSet key)

/-- `Configuration.__setattr__`: a registered name other than `config`
stores the explicit override in the setting's `value` slot; every other
name is handed to `object.__setattr__`, which for `config` rebinds the
registry attribute itself and otherwise creates a plain instance
attribute.  `TypeError` arises when `key in self.config` is evaluated
after `config` was rebound to a non-dict. -/
def conf_setattr (st : CState) (key : String) (v : Val) : Except PyErr CState :=
  if key = "config" then .ok { st with configAttr := .nondict v }
  else
    match registryOf st with
    | none => .error .typeError
    | some reg =>
      if (alookup reg key).isSome then
        .ok { st with configAttr := .dict (aupd reg key (fun s => { s with value := some v })) }
      else
        .ok { st with attrs := aset st.attrs key v }

/-- `Configuration.add_config`: stores a fresh setting dict with the
coercion function, the `env_var` key when one was given and the `default`
key when the default is not the `NOT_SET` sentinel.  Nothing is resolved
and nothing is raised at registration time. -/
def add_config (st : CState) (key : String) (type_ : Val → Except PyErr Val)
    (default : Option Val) (env_var : Option String) : Except PyErr CState :=
  match registryOf st with
  | none => .error .typeError
  | some reg =>
    let entry : Setting := { type_ := type_, env_var := env_var, default := default }
    .ok { st with configAttr := .dict (aset reg key entry) }

/-- The loop body of `Configuration.load_yaml`, applied to the parsed YAML
mapping in its iteration order: an unregistered key raises
`ValueError("Unrecognized config in YAML: ...")`, a registered key has the
raw value stored in its `yaml` slot (overwriting any previous one).  The
state mutated so far survives the raise, so the result is the final state
paired with the error, if any. -/
def load_yaml_items (st : CState) : List (String × Val) → CState × Option PyErr
  | [] => (st, none)
  | (key, value) :: rest =>
    match registryOf st with
    | none => (st, some .typeError)
    | some reg =>
      match alookup reg key with
      | none => (st, some (.valueError ("Unrecognized config in YAML: " ++ key)))
      | some _ =>
        load_yaml_items
          { st with configAttr := .dict (aupd reg key (fun s => { s with yaml := some value })) }
          rest

/-- The module bootstrap after `config.load_yaml()`: when
`config.fuel_uses_theano` resolves truthy, `theano` is imported and
`config.config['floatX']['default']` is replaced by `theano.config.floatX`
(the external provider's value, here the parameter `theanoFloatX`). -/
def theano_floatX_override (env : Env) (st : CState) (theanoFloatX : Val) :
    Except PyErr CState :=
  match conf_getattr env st "fuel_uses_theano" with
  | .error e => .error e
  | .ok flag =>
    if truthy flag then
      match registryOf st with
      | none => .error .typeError
      | some reg =>
        match alookup reg "floatX" with
        | none => .error (.keyError "floatX")
        | some _ =>
          let reg1 := aupd reg "floatX" (fun s => { s with default := some theanoFloatX })
          .ok { st with configAttr := .dict reg1 }
    else .ok st

/-- The resolution precedence as the specification words it: explicit
override, else environment variable, else YAML overlay value, else
registered default, first match wins. -/
def resolvedSource (env : Env) (s : Setting) : Option Val :=
  s.value <|> ((envValue env s).map .vstr <|> (s.yaml <|> s.default))

/-- The `yaml` slot of a registered setting, observed through the state:
`some none` when registered with no YAML value, `some (some v)` when the
YAML value `v` is stored, `none` when the setting is unregistered or the
registry was rebound. -/
def yamlOf (st : CState) (key : String) : Option (Option Val) :=
  (registryOf st).bind (fun reg => (alookup reg key).map (fun s => s.yaml))

/-- Fixture setting used to instantiate the theorems on concrete inputs:
the coercion is `str`, the sources are the four parameters. -/
def wSetting (value yaml default : Option Val) (ev : Option String) : Setting :=
  { type_ := pyStr, env_var := ev, value := value, yaml := yaml, default := default }

/-- Fixture registry with the single setting `x`. -/
def wRegistry (value yaml default : Option Val) (ev : Option String) : Registry :=
  [("x", wSetting value yaml default ev)]

/-- Fixture configuration state with the single setting `x`. -/
def wState (value yaml default : Option Val) (ev : Option String) : CState :=
  { configAttr := .dict (wRegistry value yaml default ev), attrs := [] }

theorem alookup_aupd_self {α : Type} (l : List (String × α)) (k : String) (f : α → α) :
    alookup (aupd l k f) k = (alookup l k).map f := by
  induction l with
  | nil => rfl
  | cons p t ih =>
    obtain ⟨k', a⟩ := p
    by_cases h : k' = k
    · simp [aupd, alookup, h]
    · simp [aupd, alookup, h, ih]

theorem alookup_aupd_ne {α : Type} (l : List (String × α)) (k k' : String) (f : α → α)
    (h : k' ≠ k) : alookup (aupd l k f) k' = alookup l k' := by
  induction l with
  | nil => rfl
  | cons p t ih =>
    obtain ⟨k0, a⟩ := p
    by_cases h0 : k0 = k
    · subst h0
      have hne : k0 ≠ k' := fun hh => h hh.symm
      simp [aupd, alookup, hne]
    · simp only [aupd, if_neg h0]
      by_cases h1 : k0 = k'
      · simp [alookup, h1]
      · simp [alookup, h1, ih]

theorem alookup_aupd_isSome {α : Type} (l : List (String × α)) (k k' : String) (f : α → α) :
    (alookup (aupd l k f) k').isSome = (alookup l k').isSome := by
  by_cases h : k' = k
  · subst h
    rw [alookup_aupd_self]
    cases alookup l k' <;> rfl
  · rw [alookup_aupd_ne l k k' f h]

theorem string_of_length_zero {s : String} (h : s.length = 0) : s = "" := by
  cases s with
  | mk d =>
    simp only [String.length] at h
    simp only [List.length_eq_zero] at h
    simp [h]

/-- C1.  For every registered setting (other than the reserved name
`config`), `__getattr__` resolves by the fixed precedence explicit
override, then environment variable (when `env_var` was registered and is
present in the environment), then YAML overlay value, then registered
default — first match wins — and applies the setting's coercion function
to the matched raw value; with no source present at all it raises instead.
The statement quantifies over every combination of present and absent
sources. -/
theorem conf_getattr_precedence (env : Env) (st : CState) (key : String)
    (reg : Registry) (s : Setting) (hreg : registryOf st = some reg)
    (hk : alookup reg key = some s) (hkey : key ≠ "config") :
    conf_getattr env st key =
      match resolvedSource env s with
      | some raw => s.type_ raw
      | none => .error (.configurationNotSet key) := by
  simp only [conf_getattr, if_neg hkey, hreg, hk]
  cases hv : s.value with
  | some v => simp [resolvedSource, hv]
  | none =>
    cases he : envValue env s with
    | some sv => simp [resolvedSource, hv, he]
    | none =>
      cases hy : s.yaml with
      | some v => simp [resolvedSource, hv, he, hy]
      | none =>
        cases hd : s.default with
        | some v => simp [resolvedSource, hv, he, hy, hd]
        | none => simp [resolvedSource, hv, he, hy, hd]

/-- Witness for C1 at a concrete input: all four sources are present and
the explicit override wins. -/
theorem conf_getattr_precedence_witness :
    conf_getattr [("EV", "v")]
      (wState (some (.vstr "e")) (some (.vstr "y")) (some (.vstr "d")) (some "EV")) "x" =
      .ok (.vstr "e") :=
  conf_getattr_precedence [("EV", "v")]
    (wState (some (.vstr "e")) (some (.vstr "y")) (some (.vstr "d")) (some "EV")) "x"
    (wRegistry (some (.vstr "e")) (some (.vstr "y")) (some (.vstr "d")) (some "EV"))
    (wSetting (some (.vstr "e")) (some (.vstr "y")) (some (.vstr "d")) (some "EV"))
    rfl rfl (by decide)

/-- C2.  A registered setting with no explicit override, no resolvable
environment variable, no YAML value and no default raises the
configuration-not-set error naming the setting when read; and registering
a setting without a default never raises — `add_config` succeeds on any
state whose `config` attribute is the registry dict. -/
theorem configuration_not_set_only_at_read (env : Env) (st : CState) (key : String)
    (reg : Registry) (s : Setting) (hreg : registryOf st = some reg)
    (hk : alookup reg key = some s) (hkey : key ≠ "config") (hv : s.value = none)
    (he : envValue env s = none) (hy : s.yaml = none) (hd : s.default = none) :
    conf_getattr env st key = .error (.configurationNotSet key) ∧
    ∀ (key2 : String) (t : Val → Except PyErr Val) (ev : Option String),
      add_config st key2 t none ev =
        .ok { st with configAttr := .dict (aset reg key2 { type_ := t, env_var := ev, default := none }) } := by
  constructor
  · simp [conf_getattr, if_neg hkey, hreg, hk, hv, he, hy, hd]
  · intro key2 t ev
    simp [add_config, hreg]

/-- Witness for C2 at a concrete input: the setting `x` has an `env_var`
that is absent from the environment and no other source. -/
theorem configuration_not_set_only_at_read_witness :
    conf_getattr [] (wState none none none (some "EV")) "x" =
      .error (.configurationNotSet "x") :=
  (configuration_not_set_only_at_read [] (wState none none none (some "EV")) "x"
    (wRegistry none none none (some "EV")) (wSetting none none none (some "EV"))
    rfl rfl (by decide) rfl rfl rfl rfl).1

/-- C3.  For every registered setting (other than the reserved name
`config`) and every value, storing an explicit override through
`__setattr__` and reading the setting back returns the coercion function
applied to that value, whatever the other sources hold. -/
theorem set_then_get_roundtrip (env : Env) (st : CState) (key : String) (v : Val)
    (reg : Registry) (s : Setting) (hreg : registryOf st = some reg)
    (hk : alookup reg key = some s) (hkey : key ≠ "config") :
    (conf_setattr st key v).bind (fun st2 => conf_getattr env st2 key) = s.type_ v := by
  simp only [conf_setattr, if_neg hkey, hreg, hk, Option.isSome_some, if_true]
  simp only [Except.bind]
  simp only [conf_getattr, if_neg hkey, registryOf, alookup_aupd_self, hk, Option.map_some']

/-- Witness for C3 at a concrete input: the environment variable, YAML
value and default are all present, yet `set` then `get` returns the
coerced explicit value. -/
theorem set_then_get_roundtrip_witness :
    (conf_setattr (wState none (some (.vstr "y")) (some (.vstr "d")) (some "EV")) "x"
        (.vstr "new")).bind
      (fun st2 => conf_getattr [("EV", "v")] st2 "x") = .ok (.vstr "new") :=
  set_then_get_roundtrip [("EV", "v")]
    (wState none (some (.vstr "y")) (some (.vstr "d")) (some "EV")) "x" (.vstr "new")
    (wRegistry none (some (.vstr "y")) (some (.vstr "d")) (some "EV"))
    (wSetting none (some (.vstr "y")) (some (.vstr "d")) (some "EV"))
    rfl rfl (by decide)

/-- C9.  Reading a name that is not registered, or the reserved name
`config`, raises `AttributeError` through `__getattr__`, never the
configuration-not-set error: that error is reserved for registered
settings with no source. -/
theorem unregistered_read_raises_attribute_error (env : Env) (st : CState) (key : String)
    (reg : Registry) (hreg : registryOf st = some reg)
    (h : key = "config" ∨ alookup reg key = none) :
    conf_getattr env st key = .error .attributeError ∧
    ∀ m, conf_getattr env st key ≠ .error (.configurationNotSet m) := by
  have h1 : conf_getattr env st key = .error .attributeError := by
    rcases h with h | h
    · simp [conf_getattr, h]
    · by_cases hc : key = "config"
      · simp [conf_getattr, hc]
      · simp [conf_getattr, if_neg hc, hreg, h]
  refine ⟨h1, fun m => ?_⟩
  simp [h1]

/-- Witness for C9 at a concrete input: the name `nope` was never
registered. -/
theorem unregistered_read_raises_attribute_error_witness :
    conf_getattr [] (wState none none (some (.vstr "d")) none) "nope" =
      .error .attributeError :=
  (unregistered_read_raises_attribute_error [] (wState none none (some (.vstr "d")) none)
    "nope" (wRegistry none none (some (.vstr "d")) none) rfl (Or.inr rfl)).1

/-- C6.  The semantic boolean parser `_human_bool`: a boolean is returned
as is; the strings `1`, `True`, `true` give true and `0`, `False`, `false`
give false; the empty string returns the supplied default unchanged; every
other string raises `ValueError`; every non-string non-boolean value is
coerced by native truthiness. -/
theorem human_bool_cases :
    (∀ (b : Bool) (d : Val), _human_bool (.vbool b) d = .ok (.vbool b)) ∧
    (∀ d : Val, _human_bool (.vstr "1") d = .ok (.vbool true) ∧
      _human_bool (.vstr "True") d = .ok (.vbool true) ∧
      _human_bool (.vstr "true") d = .ok (.vbool true)) ∧
    (∀ d : Val, _human_bool (.vstr "0") d = .ok (.vbool false) ∧
      _human_bool (.vstr "False") d = .ok (.vbool false) ∧
      _human_bool (.vstr "false") d = .ok (.vbool false)) ∧
    (∀ d : Val, _human_bool (.vstr "") d = .ok d) ∧
    (∀ (s : String) (d : Val), s ≠ "" → s ≠ "1" → s ≠ "True" → s ≠ "true" →
      s ≠ "0" → s ≠ "False" → s ≠ "false" →
      _human_bool (.vstr s) d =
        .error (.valueError "string will not be interpreted as bool use 'True'/'False' instead")) ∧
    (∀ (v d : Val), (∀ s, v ≠ .vstr s) → (∀ b, v ≠ .vbool b) →
      _human_bool v d = .ok (.vbool (truthy v))) := by
  refine ⟨fun b d => rfl, fun d => ⟨rfl, rfl, rfl⟩, fun d => ⟨rfl, rfl, rfl⟩, fun d => rfl,
    ?_, ?_⟩
  · intro s d h0 h1 h2 h3 h4 h5 h6
    have hl : ¬s.length = 0 := fun hl => h0 (string_of_length_zero hl)
    have hA : ¬(s = "1" ∨ s = "True" ∨ s = "true") := by
      intro hc
      rcases hc with hc | hc | hc
      exacts [h1 hc, h2 hc, h3 hc]
    have hB : ¬(s = "0" ∨ s = "False" ∨ s = "false") := by
      intro hc
      rcases hc with hc | hc | hc
      exacts [h4 hc, h5 hc, h6 hc]
    simp only [_human_bool]
    rw [if_neg hl, if_neg hA, if_neg hB]
  · intro v d hs hb
    cases v with
    | vstr s => exact absurd rfl (hs s)
    | vbool b => exact absurd rfl (hb b)
    | vint n => rfl
    | vnone => rfl
    | vlist l => rfl

/-- Witness for C6 at concrete inputs: the unrecognized string `yes`
raises, the empty string returns the supplied default unchanged, and a
non-string non-boolean is coerced by truthiness. -/
theorem human_bool_cases_witness :
    _human_bool (.vstr "yes") (.vbool true) =
      .error (.valueError "string will not be interpreted as bool use 'True'/'False' instead") ∧
    _human_bool (.vstr "") (.vint 7) = .ok (.vint 7) ∧
    _human_bool .vnone (.vbool true) = .ok (.vbool false) :=
  ⟨human_bool_cases.2.2.2.2.1 "yes" (.vbool true) (by decide) (by decide) (by decide)
      (by decide) (by decide) (by decide) (by decide),
   human_bool_cases.2.2.2.1 (.vint 7),
   human_bool_cases.2.2.2.2.2 .vnone (.vbool true) (fun s h => Val.noConfusion h)
     (fun b h => Val.noConfusion h)⟩

/-- C7.  The multi-path parser splits a string on the platform path-list
delimiter into the ordered list of the pieces (joining the pieces with the
delimiter gives the string back), passes a list through unchanged, maps
the concrete colon-delimited example as the specification states, and is
idempotent: applying it twice equals applying it once. -/
theorem multiple_paths_cases :
    (∀ (sep : Char) (s : String), multiple_paths sep (.vstr s) =
      .ok (.vlist ((splitStr sep s).map .vstr))) ∧
    (∀ (sep : Char) (s : String),
      String.mk ([sep].intercalate (List.splitOn sep s.data)) = s) ∧
    (∀ (sep : Char) (l : List Val), multiple_paths sep (.vlist l) = .ok (.vlist l)) ∧
    (multiple_paths ':' (.vstr "/a:/b") = .ok (.vlist [.vstr "/a", .vstr "/b"])) ∧
    (∀ (sep : Char) (v : Val),
      (multiple_paths sep v).bind (multiple_paths sep) =
        multiple_paths sep v) := by
  refine ⟨fun sep s => rfl, ?_, fun sep l => rfl, rfl, ?_⟩
  · intro sep s
    rw [List.intercalate_splitOn]
  · intro sep v
    cases v <;> rfl

/-- Counterexample for C4 as stated: loading a mapping whose second key is
unregistered raises the unrecognized-setting error, yet the setting listed
before it has already been mutated by that call (its `yaml` slot went from
absent to present). -/
theorem load_yaml_mutation_before_raise_cex :
    yamlOf (wState none none none none) "x" = some none ∧
    (load_yaml_items (wState none none none none) [("x", .vint 1), ("bad", .vint 2)]).2 =
      some (.valueError "Unrecognized config in YAML: bad") ∧
    yamlOf (load_yaml_items (wState none none none none)
      [("x", .vint 1), ("bad", .vint 2)]).1 "x" = some (some (.vint 1)) :=
  ⟨rfl, rfl, rfl⟩

/-- C4 amended.  Loading an overlay mapping that contains an unregistered
key raises the unrecognized-setting error naming the first such key in
iteration order; the keys listed before it have been applied (their `yaml`
slots are mutated), and nothing at or after it is applied. -/
theorem load_yaml_raises_after_preceding_keys (st : CState) (reg : Registry)
    (pre : List (String × Val)) (badK : String) (badV : Val) (rest : List (String × Val))
    (hreg : registryOf st = some reg)
    (hpre : ∀ p ∈ pre, (alookup reg p.1).isSome = true)
    (hbad : alookup reg badK = none) :
    load_yaml_items st (pre ++ (badK, badV) :: rest) =
      ((load_yaml_items st pre).1,
        some (.valueError ("Unrecognized config in YAML: " ++ badK))) := by
  induction pre generalizing st reg with
  | nil => simp [load_yaml_items, hreg, hbad]
  | cons p pre ih =>
    obtain ⟨k, v⟩ := p
    have hks : (alookup reg k).isSome = true := hpre (k, v) (List.mem_cons_self _ _)
    obtain ⟨s, hs⟩ : ∃ s, alookup reg k = some s := by
      cases hx : alookup reg k with
      | none => rw [hx] at hks; cases hks
      | some s => exact ⟨s, rfl⟩
    simp only [List.cons_append, load_yaml_items, hreg, hs]
    refine ih _ (aupd reg k (fun s => { s with yaml := some v })) rfl ?_ ?_
    · intro q hq
      rw [alookup_aupd_isSome]
      exact hpre q (List.mem_cons_of_mem _ hq)
    · have h2 := alookup_aupd_isSome reg k badK (fun s => { s with yaml := some v })
      rw [hbad] at h2
      cases hx : alookup (aupd reg k (fun s => { s with yaml := some v })) badK with
      | none => rfl
      | some a => rw [hx] at h2; cases h2

/-- Witness for the amended C4 at a concrete input: the registered key
before the unregistered one is applied, then the error is raised. -/
theorem load_yaml_raises_after_preceding_keys_witness :
    load_yaml_items (wState none none none none) [("x", .vint 1), ("bad", .vint 2)] =
      ((load_yaml_items (wState none none none none) [("x", .vint 1)]).1,
        some (.valueError "Unrecognized config in YAML: bad")) :=
  load_yaml_raises_after_preceding_keys (wState none none none none)
    (wRegistry none none none none) [("x", .vint 1)] "bad" (.vint 2) [] rfl
    (fun p hp => by rw [List.eq_of_mem_singleton hp]; rfl) rfl

/-- Counterexample for C5 as stated: a second overlay load from a mapping
with a different raw value does not leave the YAML-sourced value
unchanged — it is replaced. -/
theorem load_yaml_overwrite_cex :
    yamlOf (load_yaml_items (wState none none none none) [("x", .vint 1)]).1 "x" =
      some (some (.vint 1)) ∧
    yamlOf (load_yaml_items
      (load_yaml_items (wState none none none none) [("x", .vint 1)]).1
      [("x", .vint 2)]).1 "x" = some (some (.vint 2)) ∧
    (some (some (Val.vint 1)) : Option (Option Val)) ≠ some (some (.vint 2)) :=
  ⟨rfl, rfl, by simp⟩

/-- C5 amended.  The overlay load stores the raw value offered for a
registered key in that setting's `yaml` slot unconditionally: whatever
YAML-sourced value was present before (including one from an earlier
load), afterwards the slot holds the new mapping's value, and the load
raises nothing. -/
theorem load_yaml_second_load_overwrites (st : CState) (reg : Registry) (k : String)
    (s : Setting) (v : Val) (hreg : registryOf st = some reg)
    (hk : alookup reg k = some s) :
    (load_yaml_items st [(k, v)]).2 = none ∧
    yamlOf (load_yaml_items st [(k, v)]).1 k = some (some v) := by
  constructor
  · simp [load_yaml_items, hreg, hk]
  · simp only [load_yaml_items, hreg, hk]
    simp [yamlOf, registryOf, alookup_aupd_self, hk]

/-- Witness for the amended C5 at a concrete input: the setting already
holds YAML value 1, a load offering 2 replaces it. -/
theorem load_yaml_second_load_overwrites_witness :
    yamlOf (load_yaml_items (wState none (some (.vint 1)) none none) [("x", .vint 2)]).1 "x" =
      some (some (.vint 2)) :=
  (load_yaml_second_load_overwrites (wState none (some (.vint 1)) none none)
    (wRegistry none (some (.vint 1)) none none) "x"
    (wSetting none (some (.vint 1)) none none) (.vint 2) rfl rfl).2

/-- The setting dict registered for `floatX` at module bottom:
`type_=str`, `env_var='FUEL_FLOATX'`, `default='float64'`. -/
def floatXSetting : Setting :=
  { type_ := pyStr, env_var := some "FUEL_FLOATX", default := some (.vstr "float64") }

/-- The setting dict registered for `fuel_uses_theano` at module bottom:
`type_=functools.partial(_human_bool, default=True)`,
`env_var='FUEL_USES_THEANO'`, `default=True`. -/
def fuelUsesTheanoSetting : Setting :=
  { type_ := fun v => _human_bool v (.vbool true),
    env_var := some "FUEL_USES_THEANO", default := some (.vbool true) }

/-- The setting dict registered for `data_path` at module bottom. -/
def dataPathSetting (pathsep : Char) : Setting :=
  { type_ := multiple_paths pathsep, env_var := some "FUEL_DATA_PATH" }

/-- The setting dict registered for `default_seed` at module bottom. -/
def defaultSeedSetting : Setting :=
  { type_ := pyInt, default := some (.vint 1) }

/-- The setting dict registered for `extra_downloaders` at module bottom. -/
def extraDownloadersSetting : Setting :=
  { type_ := extra_downloader_converter, default := some (.vlist []),
    env_var := some "FUEL_EXTRA_DOWNLOADERS" }

/-- The setting dict registered for `extra_converters` at module bottom. -/
def extraConvertersSetting : Setting :=
  { type_ := extra_downloader_converter, default := some (.vlist []),
    env_var := some "FUEL_EXTRA_CONVERTERS" }

/-- The registry after the six `add_config` calls at module bottom, on a
platform whose path-list delimiter is `pathsep`. -/
def initialRegistry (pathsep : Char) : Registry :=
  [("data_path", dataPathSetting pathsep),
   ("default_seed", defaultSeedSetting),
   ("extra_downloaders", extraDownloadersSetting),
   ("extra_converters", extraConvertersSetting),
   ("floatX", floatXSetting),
   ("fuel_uses_theano", fuelUsesTheanoSetting)]

/-- The `Configuration` state after the six `add_config` calls, before
`load_yaml` runs. -/
def initState (pathsep : Char) : CState :=
  { configAttr := .dict (initialRegistry pathsep), attrs := [] }

/-- The six registrations of the module bottom, run through `add_config`
from a fresh `Configuration()`. -/
def initialConfiguration (pathsep : Char) : Except PyErr CState :=
  (add_config emptyConfiguration "data_path" (multiple_paths pathsep) none
      (some "FUEL_DATA_PATH")).bind fun st =>
  (add_config st "default_seed" pyInt (some (.vint 1)) none).bind fun st =>
  (add_config st "extra_downloaders" extra_downloader_converter (some (.vlist []))
      (some "FUEL_EXTRA_DOWNLOADERS")).bind fun st =>
  (add_config st "extra_converters" extra_downloader_converter (some (.vlist []))
      (some "FUEL_EXTRA_CONVERTERS")).bind fun st =>
  (add_config st "floatX" pyStr (some (.vstr "float64")) (some "FUEL_FLOATX")).bind fun st =>
  add_config st "fuel_uses_theano" (fun v => _human_bool v (.vbool true)) (some (.vbool true))
    (some "FUEL_USES_THEANO")

theorem initialConfiguration_builds (pathsep : Char) :
    initialConfiguration pathsep = .ok (initState pathsep) := rfl

/-- The state after the bootstrap replaced the `default` slot of `floatX`
by the external provider's value `x`. -/
def overriddenState (st : CState) (reg : Registry) (x : Val) : CState :=
  { st with configAttr := .dict (aupd reg "floatX" (fun s => { s with default := some x })) }

/-- C8.  When `fuel_uses_theano` resolves truthy, the bootstrap replaces
only the `default` tier of `floatX` with the externally provided value:
absent explicit, environment and YAML sources, reading `floatX` afterwards
returns the coercion of the external value instead of the registered
literal default, while any explicit, environment or YAML source still
resolves ahead of the default exactly as before the substitution. -/
theorem theano_override_default_only (env : Env) (st : CState) (reg : Registry)
    (s : Setting) (flag x : Val)
    (hreg : registryOf st = some reg) (hfx : alookup reg "floatX" = some s)
    (hflag : conf_getattr env st "fuel_uses_theano" = .ok flag)
    (htrue : truthy flag = true) :
    theano_floatX_override env st x = .ok (overriddenState st reg x) ∧
    (s.value = none → envValue env s = none → s.yaml = none →
      conf_getattr env (overriddenState st reg x) "floatX" = s.type_ x) ∧
    (s.value ≠ none ∨ envValue env s ≠ none ∨ s.yaml ≠ none →
      conf_getattr env (overriddenState st reg x) "floatX" =
        conf_getattr env st "floatX") ∧
    (∀ k2, k2 ≠ "floatX" →
      conf_getattr env (overriddenState st reg x) k2 = conf_getattr env st k2) := by
  have hlook : alookup (aupd reg "floatX" (fun s => { s with default := some x })) "floatX" =
      some { s with default := some x } := by
    rw [alookup_aupd_self, hfx]
    rfl
  have hreg2 : registryOf (overriddenState st reg x) =
      some (aupd reg "floatX" (fun s => { s with default := some x })) := rfl
  refine ⟨?_, ?_, ?_, ?_⟩
  · simp [theano_floatX_override, hflag, htrue, hreg, hfx, overriddenState]
  · intro hv he hy
    simp only [conf_getattr, hreg2, hlook]
    simp only [envValue] at he ⊢
    simp [hv, he, hy]
  · intro hsrc
    cases hv : s.value with
    | some w =>
      simp only [conf_getattr, hreg2, hlook, hreg, hfx]
      simp [hv]
    | none =>
      cases he : envValue env s with
      | some sv =>
        simp only [conf_getattr, hreg2, hlook, hreg, hfx]
        simp only [envValue] at he ⊢
        simp [hv, he]
      | none =>
        cases hy : s.yaml with
        | some w =>
          simp only [conf_getattr, hreg2, hlook, hreg, hfx]
          simp only [envValue] at he ⊢
          simp [hv, he, hy]
        | none =>
          rcases hsrc with h | h | h
          exacts [absurd hv h, absurd he h, absurd hy h]
  · intro k2 hne
    by_cases hc : k2 = "config"
    · simp [conf_getattr, hc]
    · simp only [conf_getattr, if_neg hc, hreg2, hreg, alookup_aupd_ne reg "floatX" k2 _ hne]

/-- Witness for C8 at the module's own registrations: with an empty
environment `fuel_uses_theano` resolves to its default `True`, and after
the substitution `floatX` reads as the external value `float32`, not the
registered literal `float64`. -/
theorem theano_override_default_only_witness :
    conf_getattr [] (overriddenState (initState ':') (initialRegistry ':') (.vstr "float32"))
      "floatX" = .ok (.vstr "float32") :=
  (theano_override_default_only [] (initState ':') (initialRegistry ':') floatXSetting
    (.vbool true) (.vstr "float32") rfl rfl rfl rfl).2.1 rfl rfl rfl

/-- Counterexample for C10 as stated: the name `config` was never
registered, assigning to it does not raise, yet it replaces the registry
mapping itself, and a subsequent read of the registered setting `x`
raises `TypeError` instead of returning its default. -/
theorem setattr_config_name_cex :
    alookup (wRegistry none none (some (.vstr "d")) none) "config" = none ∧
    conf_setattr (wState none none (some (.vstr "d")) none) "config" (.vint 5) =
      .ok { configAttr := .nondict (.vint 5), attrs := [] } ∧
    conf_getattr [] (wState none none (some (.vstr "d")) none) "x" = .ok (.vstr "d") ∧
    conf_getattr [] { configAttr := .nondict (.vint 5), attrs := [] } "x" =
      .error .typeError :=
  ⟨rfl, rfl, rfl, rfl⟩

/-- C10 amended.  Assigning a value to a name that was never registered
never raises; when that name is not the reserved attribute `config`, the
assignment only creates a plain instance attribute: the registry mapping
is unchanged and every subsequent read of every setting is unaffected.
Assigning to `config` itself instead rebinds the registry attribute. -/
theorem setattr_unregistered_frame (env : Env) (st : CState) (key : String) (v : Val)
    (reg : Registry) (hreg : registryOf st = some reg) (hk : alookup reg key = none)
    (hkey : key ≠ "config") :
    conf_setattr st key v = .ok { st with attrs := aset st.attrs key v } ∧
    registryOf { st with attrs := aset st.attrs key v } = some reg ∧
    ∀ k2, conf_getattr env { st with attrs := aset st.attrs key v } k2 =
      conf_getattr env st k2 := by
  refine ⟨?_, hreg, fun k2 => rfl⟩
  simp [conf_setattr, if_neg hkey, hreg, hk]

/-- Witness for the amended C10 at a concrete input: assigning to the
unregistered name `other` succeeds and only adds a plain attribute. -/
theorem setattr_unregistered_frame_witness :
    conf_setattr (wState none none (some (.vstr "d")) none) "other" (.vint 7) =
      .ok { configAttr := .dict (wRegistry none none (some (.vstr "d")) none),
            attrs := [("other", .vint 7)] } :=
  (setattr_unregistered_frame [] (wState none none (some (.vstr "d")) none) "other"
    (.vint 7) (wRegistry none none (some (.vstr "d")) none) rfl rfl (by decide)).1

end FuelConfig
